import Mathlib

/-!
Shallow embedding of the `IntuisNetatmo` client (`IntuisNetatmo.py`).

HTTP transport and the filesystem are external collaborators: each embedded
operation takes the parsed body of the (successful) server response as an
explicit argument, and the constructor takes the observable contents of
`secrets.json` as an argument.  Python dictionaries keyed by strings are
modelled as insertion-ordered association lists; `None`-able values are
`Option`s; Python exceptions become an explicit `PyErr` result; text printed
to the console is modelled as a list of structured `LogEvent`s.
-/

set_option autoImplicit false

namespace Intuis

/-- The Python exceptions the embedded code can raise:
`ValueError(msg)` and `IndexError` (from subscripting an empty list). -/
inductive PyErr where
  | valueError (msg : String)
  | indexError
  deriving DecidableEq, Repr

/-- One line printed to the console by the client (`print(...)` calls). -/
inductive LogEvent where
  | addedRoom (roomId : String)
  | addedWaterHeater (roomId : String)
  | warnUnknownModuleType (moduleType roomName : String)
  | warnNoRoomStatus (roomId : String)
  | warnNoWaterHeaterStatus (heaterId : String)
  deriving DecidableEq, Repr

/-- Python truthiness of an optional string: `None` and `""` are falsy. -/
def strTruthy : Option String → Bool
  | none => false
  | some s => s != ""

/-- Python truthiness of an optional natural number: `None` and `0` are falsy. -/
def natTruthy : Option Nat → Bool
  | none => false
  | some n => n != 0

/-- Python truthiness of an optional integer: `None` and `0` are falsy. -/
def intTruthy : Option Int → Bool
  | none => false
  | some t => t != 0

/-- Python dict assignment `d[k] = v` on a string-keyed dict: overwrite in
place when the key exists, otherwise append at the end. -/
def dictInsert {α : Type} : List (String × α) → String → α → List (String × α)
  | [], k, v => [(k, v)]
  | (k', v') :: rest, k, v =>
    if k' = k then (k, v) :: rest else (k', v') :: dictInsert rest k v

/-- Python dict lookup `d.get(k)`: the value under `k`, or `None`. -/
def dictGet {α : Type} : List (String × α) → String → Option α
  | [], _ => none
  | (k', v) :: rest, k => if k' = k then some v else dictGet rest k

/-! ### Server payload shapes (as the code consumes them) -/

/-- A module record in the homesdata (topology) payload.  The code subscripts
`module["id"]` and `module["type"]` directly and reads `module.get("name")`. -/
structure TopoModule where
  id : String
  type : String
  name : Option String
  deriving DecidableEq, Repr

/-- A room record in the homesdata (topology) payload.  `module_ids` is
`none` when the key is absent (`"module_ids" in room` fails). -/
structure TopoRoom where
  id : String
  name : String
  type : String
  module_ids : Option (List String)
  deriving DecidableEq, Repr

/-- One home record in the homesdata payload. -/
structure TopoHome where
  id : String
  name : String
  modules : List TopoModule
  rooms : List TopoRoom
  deriving DecidableEq, Repr

/-- The homesdata payload: `body.homes`. -/
structure HomesData where
  homes : List TopoHome
  deriving DecidableEq, Repr

/-- A room record in the homestatus payload; every field other than the id is
read with `.get(...)`, so each is optional. -/
structure RoomStatus where
  id : String
  therm_measured_temperature : Option Rat
  therm_setpoint_temperature : Option Rat
  therm_setpoint_mode : Option String
  heating_power_request : Option Rat
  energy : Option Rat
  deriving DecidableEq, Repr

/-- A module record in the homestatus payload (`body.home.modules`). -/
structure ModuleStatus where
  id : String
  type : Option String
  boiler_status : Option Bool
  connection_status : Option String
  contactor_mode : Option String
  firmware_revision : Option Nat
  last_seen : Option Nat
  bridge : Option String
  deriving DecidableEq, Repr

/-- The homestatus payload: `body.home.rooms` and `body.home.modules`. -/
structure HomeStatus where
  rooms : List RoomStatus
  modules : List ModuleStatus
  deriving DecidableEq, Repr

/-- The parsed body of the token endpoint's response.  `expires_in` is
carried by real servers but the client never reads it. -/
structure TokenResponse where
  access_token : Option String
  refresh_token : Option String
  expires_in : Option Nat
  deriving DecidableEq, Repr

/-! ### Entities -/

/-- An entry of a Room's `associated_modules` list, built with `.get`. -/
structure AssociatedModule where
  id : Option String
  name : Option String
  type : Option String
  deriving DecidableEq, Repr

/-- `IntuisRoom`: a room thermostat entity. -/
structure IntuisRoom where
  id : String
  name : String
  type : String
  current_temp : Option Rat
  target_temp : Option Rat
  mode : Option String
  heating_power : Option Rat
  energy_consumption : Option Rat
  associated_modules : List AssociatedModule
  deriving DecidableEq, Repr

/-- `IntuisRoom.__init__`. -/
def IntuisRoom.init (room_id room_name room_type : String) : IntuisRoom :=
  { id := room_id, name := room_name, type := room_type,
    current_temp := none, target_temp := none, mode := none,
    heating_power := none, energy_consumption := none,
    associated_modules := [] }

/-- `IntuisRoom.update_status`: four fields are assigned from `.get(...)`
(absence writes `None`); `energy` is assigned only when present. -/
def IntuisRoom.update_status (r : IntuisRoom) (room_status : RoomStatus) : IntuisRoom :=
  { r with
    current_temp := room_status.therm_measured_temperature,
    target_temp := room_status.therm_setpoint_temperature,
    mode := room_status.therm_setpoint_mode,
    heating_power := room_status.heating_power_request,
    energy_consumption :=
      match room_status.energy with
      | some e => some e
      | none => r.energy_consumption }

/-- `IntuisRoom.add_module`: append the module's `{id, name, type}`. -/
def IntuisRoom.add_module (r : IntuisRoom) (m : TopoModule) : IntuisRoom :=
  { r with associated_modules :=
      r.associated_modules ++ [{ id := some m.id, name := m.name, type := some m.type }] }

/-- `IntuisWaterHeater`: a water-heater contactor entity. -/
structure IntuisWaterHeater where
  id : String
  room_id : String
  name : String
  boiler_status : Option Bool
  connection_status : Option String
  contactor_mode : Option String
  firmware_revision : Option Nat
  last_seen : Option Nat
  bridge : Option String
  deriving DecidableEq, Repr

/-- `IntuisWaterHeater.__init__`. -/
def IntuisWaterHeater.init (heater_id heater_name room_id : String) : IntuisWaterHeater :=
  { id := heater_id, room_id := room_id, name := heater_name,
    boiler_status := none, connection_status := none, contactor_mode := none,
    firmware_revision := none, last_seen := none, bridge := none }

/-- `IntuisWaterHeater.update_status`: every field assigned from `.get(...)`. -/
def IntuisWaterHeater.update_status (w : IntuisWaterHeater) (hs : ModuleStatus) : IntuisWaterHeater :=
  { w with
    boiler_status := hs.boiler_status,
    connection_status := hs.connection_status,
    contactor_mode := hs.contactor_mode,
    firmware_revision := hs.firmware_revision,
    last_seen := hs.last_seen,
    bridge := hs.bridge }

/-! ### Client state -/

/-- The mutable instance fields of `IntuisNetatmo` (the `requests.Session`
and the raw `measures` cache are not touched by any modelled claim). -/
structure ClientState where
  base_url : String
  username : String
  password : String
  client_id : String
  client_secret : String
  token : Option String
  refresh_token : Option String
  token_expiry : Option Nat
  homesdata : Option HomesData
  home_id : Option String
  home_name : Option String
  homestatus : Option HomeStatus
  router_id : Option String
  rooms : List (String × IntuisRoom)
  water_heaters : List (String × IntuisWaterHeater)
  deriving DecidableEq, Repr

/-- `IntuisNetatmo.do_init`. -/
def do_init (username password client_id client_secret base_url : String) : ClientState :=
  { base_url := base_url, username := username, password := password,
    client_id := client_id, client_secret := client_secret,
    token := none, refresh_token := none, token_expiry := none,
    homesdata := none, home_id := none, home_name := none,
    homestatus := none, router_id := none, rooms := [], water_heaters := [] }

/-- What the constructor can observe of `secrets.json`: the file is missing
(`FileNotFoundError`), unparseable (`json.JSONDecodeError`), or parses to a
string-keyed object. -/
inductive SecretsFile where
  | missing
  | unparseable
  | parsed (entries : List (String × String))
  deriving DecidableEq, Repr

/-- The effective `IntuisNetatmo.__init__`.  The source defines `__init__`
twice; the second definition (taking only `base_url`) shadows the first, so
credentials can only come from `secrets.json`. -/
def clientInit (f : SecretsFile) (base_url : String) : Except PyErr ClientState :=
  match f with
  | .missing =>
      .error (.valueError "Missing credentials and could not load from secrets.json")
  | .unparseable =>
      .error (.valueError "Missing credentials and could not load from secrets.json")
  | .parsed entries =>
      let username := dictGet entries "username"
      let password := dictGet entries "password"
      let client_id := dictGet entries "client_id"
      let client_secret := dictGet entries "client_secret"
      if strTruthy username && strTruthy password &&
          strTruthy client_id && strTruthy client_secret then
        .ok (do_init (username.getD "") (password.getD "") (client_id.getD "")
          (client_secret.getD "") base_url)
      else
        .error (.valueError
          "Missing required credentials. Please provide all credentials or ensure they are in secrets.json")

/-- `IntuisNetatmo._get_token`.  `now` is `datetime.now().timestamp()`;
`resp` is the parsed body the token endpoint would answer with.  Returns the
new state, the returned token, and the number of network requests issued. -/
def get_token (st : ClientState) (now : Nat) (resp : TokenResponse) :
    ClientState × Option String × Nat :=
  if strTruthy st.token && natTruthy st.token_expiry &&
      decide (now < st.token_expiry.getD 0) then
    (st, st.token, 0)
  else
    ({ st with
        token := resp.access_token
        refresh_token := resp.refresh_token
        token_expiry := some (now + 3600) }, resp.access_token, 1)

/-! ### CommandDispatcher -/

/-- The one room entry of the `home.rooms` array of an outgoing
setpoint/mode payload; optional fields are absent when `none`. -/
structure RoomCmd where
  id : String
  therm_setpoint_mode : String
  therm_setpoint_temperature : Option Rat
  therm_setpoint_end_time : Option Int
  deriving DecidableEq, Repr

/-- The one module entry of the outgoing set-contactor-mode payload. -/
structure ContactorCmd where
  id : String
  contactor_mode : String
  deriving DecidableEq, Repr

/-- The `valid_modes` list of `set_room_mode`. -/
def valid_modes : List String := ["program", "away", "hg", "manual"]

/-- `IntuisNetatmo.set_room_mode`.  Returns the state after the call, the
number of network requests issued, and either the raised `ValueError` or the
room entry of the posted payload. -/
def set_room_mode (st : ClientState) (room_id mode : String) (temperature : Option Rat)
    (now : Nat) (resp : TokenResponse) : ClientState × Nat × Except PyErr RoomCmd :=
  if !(valid_modes.contains mode) then
    (st, 0, .error (.valueError "Mode must be one of: program, away, hg, manual"))
  else if mode == "manual" && temperature.isNone then
    (st, 0, .error (.valueError "Temperature must be specified when using manual mode"))
  else
    let t := get_token st now resp
    (t.1, t.2.2 + 1, .ok
      { id := room_id
        therm_setpoint_mode := mode
        therm_setpoint_temperature := if mode == "manual" then temperature else none
        therm_setpoint_end_time := none })

/-- `IntuisNetatmo.set_room_setpoint`.  The end-time field is added to the
payload under `if end_time:`, i.e. only when the argument is truthy. -/
def set_room_setpoint (st : ClientState) (room_id : String) (temp : Rat)
    (end_time : Option Int) (now : Nat) (resp : TokenResponse) :
    ClientState × Nat × Except PyErr RoomCmd :=
  let t := get_token st now resp
  (t.1, t.2.2 + 1, .ok
    { id := room_id
      therm_setpoint_mode := "manual"
      therm_setpoint_temperature := some temp
      therm_setpoint_end_time := if intTruthy end_time then end_time else none })

/-- `IntuisNetatmo.set_water_heater_mode`. -/
def set_water_heater_mode (st : ClientState) (water_heater_id mode : String)
    (now : Nat) (resp : TokenResponse) : ClientState × Nat × Except PyErr ContactorCmd :=
  if !(["auto", "manual"].contains mode) then
    (st, 0, .error (.valueError "Mode must be auto or manual"))
  else
    let t := get_token st now resp
    (t.1, t.2.2 + 1, .ok { id := water_heater_id, contactor_mode := mode })

/-! ### TopologyLoader -/

/-- The inner scan of one room's `module_ids` (`get_homesdata`, the loop over
`room["module_ids"]`): each bound id is resolved to the first module record
carrying it; an `NMH` record creates-or-reuses the room and appends the
module; an `NMW` record creates the water heater on first occurrence only;
any other type prints a warning; an id with no record is silently skipped. -/
def scanModules (modules : List TopoModule) (room_id room_name room_type : String) :
    List String → Option IntuisRoom → Option IntuisWaterHeater →
    Option IntuisRoom × Option IntuisWaterHeater × List LogEvent
  | [], r, w => (r, w, [])
  | mid :: rest, r, w =>
    match modules.find? (fun m => m.id == mid) with
    | none => scanModules modules room_id room_name room_type rest r w
    | some m =>
      if m.type == "NMH" then
        let r0 := match r with
          | none => IntuisRoom.init room_id room_name room_type
          | some prev => prev
        scanModules modules room_id room_name room_type rest (some (r0.add_module m)) w
      else if m.type == "NMW" then
        let w1 := match w with
          | none => some (IntuisWaterHeater.init mid room_name room_id)
          | some _ => w
        scanModules modules room_id room_name room_type rest r w1
      else
        let res := scanModules modules room_id room_name room_type rest r w
        (res.1, res.2.1, LogEvent.warnUnknownModuleType m.type room_name :: res.2.2)

/-- The outer loop of `get_homesdata` over the home's rooms, threading the
`rooms` and `water_heaters` dicts.  A room entry is processed only when its
`module_ids` key is present and non-empty; the room / water heater produced
by the scan, when any, is written under the room's id. -/
def processRooms (modules : List TopoModule) :
    List TopoRoom → List (String × IntuisRoom) → List (String × IntuisWaterHeater) →
    List (String × IntuisRoom) × List (String × IntuisWaterHeater) × List LogEvent
  | [], rooms, whs => (rooms, whs, [])
  | room :: rest, rooms, whs =>
    match room.module_ids with
    | none => processRooms modules rest rooms whs
    | some ids =>
      if ids.isEmpty then processRooms modules rest rooms whs
      else
        let res := scanModules modules room.id room.name room.type ids none none
        let rooms1 :=
          match res.1 with
          | some ir => dictInsert rooms room.id ir
          | none => rooms
        let evs1 : List LogEvent :=
          match res.1 with
          | some _ => [LogEvent.addedRoom room.id]
          | none => []
        let whs1 :=
          match res.2.1 with
          | some wh => dictInsert whs room.id wh
          | none => whs
        let evs2 : List LogEvent :=
          match res.2.1 with
          | some _ => [LogEvent.addedWaterHeater room.id]
          | none => []
        let rec1 := processRooms modules rest rooms1 whs1
        (rec1.1, rec1.2.1, res.2.2 ++ evs1 ++ evs2 ++ rec1.2.2)

/-- `IntuisNetatmo.get_homesdata`.  The token exchange and the GET are
abstracted into the `now`/`tokResp`/`payload` arguments; the result carries
the state after the call, the console output, and either `()` or the raised
exception (`IndexError` from `homes[0]` when the home list is empty, raised
after `self.homesdata` has already been assigned). -/
def get_homesdata (st : ClientState) (now : Nat) (tokResp : TokenResponse)
    (payload : HomesData) : ClientState × List LogEvent × Except PyErr Unit :=
  let st2 := { (get_token st now tokResp).1 with homesdata := some payload }
  match payload.homes with
  | [] => (st2, [], .error .indexError)
  | home :: _ =>
    let router_id :=
      match home.modules.find? (fun m => m.type == "NMG") with
      | some m => some m.id
      | none => st2.router_id
    let res := processRooms home.modules home.rooms [] st2.water_heaters
    ({ st2 with
        home_id := some home.id
        home_name := some home.name
        router_id := router_id
        rooms := res.1
        water_heaters := res.2.1 }, res.2.2, .ok ())

/-! ### StatusSync -/

/-- The room-update loop of `get_homestatus`: each known room is matched
against the first status record with the room's own id; a match overwrites
the room via `update_status`, otherwise the room is kept and a warning
printed. -/
def updateRooms (statusRooms : List RoomStatus) :
    List (String × IntuisRoom) → List (String × IntuisRoom) × List LogEvent
  | [] => ([], [])
  | (k, room) :: rest =>
    let res := updateRooms statusRooms rest
    match statusRooms.find? (fun r => r.id == room.id) with
    | some m => ((k, room.update_status m) :: res.1, res.2)
    | none => ((k, room) :: res.1, LogEvent.warnNoRoomStatus room.id :: res.2)

/-- The water-heater-update loop of `get_homestatus`: each known water heater
is matched against the first module record whose id equals the water
heater's own id — with no restriction on the record's type. -/
def updateWaterHeaters (statusModules : List ModuleStatus) :
    List (String × IntuisWaterHeater) → List (String × IntuisWaterHeater) × List LogEvent
  | [] => ([], [])
  | (k, wh) :: rest =>
    let res := updateWaterHeaters statusModules rest
    match statusModules.find? (fun r => r.id == wh.id) with
    | some m => ((k, wh.update_status m) :: res.1, res.2)
    | none => ((k, wh) :: res.1, LogEvent.warnNoWaterHeaterStatus wh.id :: res.2)

/-- `IntuisNetatmo.get_homestatus`.  The token exchange, the config-pull
call (response discarded) and the status call are abstracted into the
`now`/`tokResp`/`payload` arguments. -/
def get_homestatus (st : ClientState) (now : Nat) (tokResp : TokenResponse)
    (payload : HomeStatus) : ClientState × List LogEvent :=
  let st2 := { (get_token st now tokResp).1 with homestatus := some payload }
  let r1 := updateRooms payload.rooms st2.rooms
  let r2 := updateWaterHeaters payload.modules st2.water_heaters
  ({ st2 with rooms := r1.1, water_heaters := r2.1 }, r1.2 ++ r2.2)

/-- Whether a bound module id resolves (via the first module record carrying
it, as the inner loop of `get_homesdata` does) to a module of type `t`. -/
def resolvesTo (modules : List TopoModule) (t : String) (mid : String) : Bool :=
  match modules.find? (fun m => m.id == mid) with
  | some m => m.type == t
  | none => false

/-! ### Concrete fixtures (used by witnesses and counterexamples) -/

/-- A freshly constructed client. -/
def stSample : ClientState := do_init "u" "p" "ci" "cs" "https://app.muller-intuitiv.net"

/-- A successful token-endpoint response body. -/
def respSample : TokenResponse :=
  { access_token := some "tok", refresh_token := some "rtok", expires_in := some 7200 }

/-- A client holding a fresh cached token. -/
def stCached : ClientState :=
  { stSample with token := some "abc", token_expiry := some 100 }

/-- The one room of the sample topology: bound to a water-heater module, a
heating module, a second water-heater module and a module of unknown type,
in that order; the room id differs from every module id. -/
def roomSample : TopoRoom :=
  { id := "room1", name := "Bath", type := "bathroom",
    module_ids := some ["mod1", "mod2", "mod3", "mod4"] }

/-- The one home of the sample topology. -/
def homeSample : TopoHome :=
  { id := "h1"
    name := "Home"
    modules := [
      { id := "gw", type := "NMG", name := some "gateway" },
      { id := "mod1", type := "NMW", name := some "heater" },
      { id := "mod2", type := "NMH", name := some "rad" },
      { id := "mod3", type := "NMW", name := some "heater2" },
      { id := "mod4", type := "NAC", name := some "odd" }]
    rooms := [roomSample] }

/-- A minimal topology payload holding `homeSample` alone. -/
def topoSample : HomesData := { homes := [homeSample] }

/-- A home with no modules and no rooms, and a payload holding it: a reload
fixture whose topology no longer mentions the previously loaded room. -/
def homeEmpty : TopoHome := { id := "h2", name := "Empty", modules := [], rooms := [] }

/-- A topology payload holding only `homeEmpty`. -/
def topoEmptyHome : HomesData := { homes := [homeEmpty] }

/-- The client state after loading `topoSample` from a fresh client. -/
def stLoaded : ClientState := (get_homesdata stSample 0 respSample topoSample).1

/-- A status payload whose module list has a record with the water-heater
module's id but a non-water-heater type, and whose room list has a record
for the room that leaves every optional field absent except the mode. -/
def statusSample : HomeStatus :=
  { rooms := [
      { id := "room1"
        therm_measured_temperature := none
        therm_setpoint_temperature := none
        therm_setpoint_mode := some "program"
        heating_power_request := none
        energy := none }]
    modules := [
      { id := "mod1"
        type := some "NAC"
        boiler_status := some true
        connection_status := some "ok"
        contactor_mode := some "auto"
        firmware_revision := some 2
        last_seen := some 77
        bridge := some "gw" }] }

/-- A client with one room holding previously merged readings (to show what
a later status merge does to fields absent from the payload) and one room
with no status record at all (to show the unmatched-room branch). -/
def stWithReadings : ClientState :=
  { stSample with rooms := [
      ("room1",
        { IntuisRoom.init "room1" "Bath" "bathroom" with
            current_temp := some 20
            target_temp := some 19
            mode := some "manual"
            heating_power := some 42
            energy_consumption := some 5 }),
      ("room2", IntuisRoom.init "room2" "Kitchen" "kitchen")] }

/-! ## Helper lemmas -/

theorem dictGet_dictInsert_self {α : Type} (d : List (String × α)) (k : String) (v : α) :
    dictGet (dictInsert d k v) k = some v := by
  induction d with
  | nil => simp [dictInsert, dictGet]
  | cons hd tl ih =>
    obtain ⟨k0, v0⟩ := hd
    by_cases h : k0 = k <;> simp [dictInsert, dictGet, h, ih]

theorem dictGet_dictInsert_ne {α : Type} (d : List (String × α)) (k k1 : String) (v : α)
    (h : k1 ≠ k) : dictGet (dictInsert d k v) k1 = dictGet d k1 := by
  induction d with
  | nil => simp [dictInsert, dictGet, Ne.symm h]
  | cons hd tl ih =>
    obtain ⟨k0, v0⟩ := hd
    by_cases h0 : k0 = k
    · subst h0
      simp [dictInsert, dictGet, h, Ne.symm h]
    · simp [dictInsert, dictGet, h0]
      by_cases h1 : k0 = k1 <;> simp [dictGet, h1, ih]

theorem dictGet_isSome_dictInsert {α : Type} (d : List (String × α)) (k k1 : String) (v : α)
    (h : (dictGet d k1).isSome = true) : (dictGet (dictInsert d k v) k1).isSome = true := by
  by_cases hk : k1 = k
  · subst hk
    simp [dictGet_dictInsert_self]
  · rw [dictGet_dictInsert_ne d k k1 v hk]
    exact h

theorem get_token_fst_eq_or (st : ClientState) (now : Nat) (resp : TokenResponse) :
    (get_token st now resp).1 = st ∨
    (get_token st now resp).1 =
      { st with
          token := resp.access_token
          refresh_token := resp.refresh_token
          token_expiry := some (now + 3600) } := by
  unfold get_token
  split
  · exact Or.inl rfl
  · exact Or.inr rfl

theorem get_token_fst_rooms (st : ClientState) (now : Nat) (resp : TokenResponse) :
    (get_token st now resp).1.rooms = st.rooms := by
  rcases get_token_fst_eq_or st now resp with h | h <;> rw [h]

theorem get_token_fst_water_heaters (st : ClientState) (now : Nat) (resp : TokenResponse) :
    (get_token st now resp).1.water_heaters = st.water_heaters := by
  rcases get_token_fst_eq_or st now resp with h | h <;> rw [h]

theorem find?_isSome_eq_any {α : Type} (p : α → Bool) (l : List α) :
    (l.find? p).isSome = l.any p := by
  induction l with
  | nil => rfl
  | cons a t ih => by_cases h : p a <;> simp [List.find?_cons, h, ih]

theorem mem_keys_dictInsert {α : Type} (d : List (String × α)) (k k1 : String) (v : α)
    (h : k1 ∈ (dictInsert d k v).map Prod.fst) : k1 ∈ d.map Prod.fst ∨ k1 = k := by
  induction d with
  | nil =>
    simp only [dictInsert, List.map_cons, List.map_nil, List.mem_singleton] at h
    exact Or.inr h
  | cons hd tl ih =>
    obtain ⟨k0, v0⟩ := hd
    by_cases h0 : k0 = k
    · subst h0
      have hred : dictInsert ((k0, v0) :: tl) k0 v = (k0, v) :: tl := by
        simp [dictInsert]
      rw [hred, List.map_cons, List.mem_cons] at h
      rw [List.map_cons, List.mem_cons]
      rcases h with h | h
      · exact Or.inr h
      · exact Or.inl (Or.inr h)
    · have hred : dictInsert ((k0, v0) :: tl) k v = (k0, v0) :: dictInsert tl k v := by
        simp [dictInsert, h0]
      rw [hred, List.map_cons, List.mem_cons] at h
      rw [List.map_cons, List.mem_cons]
      rcases h with h | h
      · exact Or.inl (Or.inl h)
      · rcases ih h with h1 | h1
        · exact Or.inl (Or.inr h1)
        · exact Or.inr h1

theorem keys_nodup_dictInsert {α : Type} (d : List (String × α)) (k : String) (v : α)
    (h : (d.map Prod.fst).Nodup) : ((dictInsert d k v).map Prod.fst).Nodup := by
  induction d with
  | nil => simp [dictInsert]
  | cons hd tl ih =>
    obtain ⟨k0, v0⟩ := hd
    rw [List.map_cons, List.nodup_cons] at h
    by_cases h0 : k0 = k
    · subst h0
      have hred : dictInsert ((k0, v0) :: tl) k0 v = (k0, v) :: tl := by
        simp [dictInsert]
      rw [hred, List.map_cons, List.nodup_cons]
      exact ⟨h.1, h.2⟩
    · have hred : dictInsert ((k0, v0) :: tl) k v = (k0, v0) :: dictInsert tl k v := by
        simp [dictInsert, h0]
      rw [hred, List.map_cons, List.nodup_cons]
      refine ⟨?_, ih h.2⟩
      intro hmem
      rcases mem_keys_dictInsert tl k k0 v hmem with h1 | h1
      · exact h.1 h1
      · exact h0 h1

theorem scanModules_fst (modules : List TopoModule) (rid rname rtype : String) :
    ∀ (ids : List String) (r : Option IntuisRoom) (w : Option IntuisWaterHeater),
      (scanModules modules rid rname rtype ids r w).1.isSome =
        (r.isSome || ids.any (resolvesTo modules "NMH")) := by
  intro ids
  induction ids with
  | nil => intro r w; simp [scanModules]
  | cons mid rest ih =>
    intro r w
    cases hfind : modules.find? (fun m => m.id == mid) with
    | none =>
      simp only [scanModules, hfind]
      rw [ih]
      simp [resolvesTo, hfind]
    | some m =>
      by_cases hnmh : (m.type == "NMH") = true
      · simp only [scanModules, hfind, if_pos hnmh]
        rw [ih]
        simp [resolvesTo, hfind, hnmh]
      · by_cases hnmw : (m.type == "NMW") = true
        · simp only [scanModules, hfind, if_neg hnmh, if_pos hnmw]
          rw [ih]
          simp [resolvesTo, hfind, hnmh]
        · simp only [scanModules, hfind, if_neg hnmh, if_neg hnmw]
          rw [ih]
          simp [resolvesTo, hfind, hnmh]

theorem scanModules_snd_some (modules : List TopoModule) (rid rname rtype : String) :
    ∀ (ids : List String) (r : Option IntuisRoom) (wh : IntuisWaterHeater),
      (scanModules modules rid rname rtype ids r (some wh)).2.1 = some wh := by
  intro ids
  induction ids with
  | nil => intro r wh; simp [scanModules]
  | cons mid rest ih =>
    intro r wh
    cases hfind : modules.find? (fun m => m.id == mid) with
    | none =>
      simp only [scanModules, hfind]
      exact ih r wh
    | some m =>
      by_cases hnmh : (m.type == "NMH") = true
      · simp only [scanModules, hfind, if_pos hnmh]
        exact ih _ wh
      · by_cases hnmw : (m.type == "NMW") = true
        · simp only [scanModules, hfind, if_neg hnmh, if_pos hnmw]
          exact ih r wh
        · simp only [scanModules, hfind, if_neg hnmh, if_neg hnmw]
          exact ih r wh

theorem scanModules_snd_none (modules : List TopoModule) (rid rname rtype : String) :
    ∀ (ids : List String) (r : Option IntuisRoom),
      (scanModules modules rid rname rtype ids r none).2.1 =
        (ids.find? (resolvesTo modules "NMW")).map
          (fun mid => IntuisWaterHeater.init mid rname rid) := by
  intro ids
  induction ids with
  | nil => intro r; simp [scanModules]
  | cons mid rest ih =>
    intro r
    cases hfind : modules.find? (fun m => m.id == mid) with
    | none =>
      simp only [scanModules, hfind]
      rw [ih]
      have hne : resolvesTo modules "NMW" mid = false := by simp [resolvesTo, hfind]
      simp [List.find?_cons, hne]
    | some m =>
      by_cases hnmh : (m.type == "NMH") = true
      · simp only [scanModules, hfind, if_pos hnmh]
        rw [ih]
        have hne : resolvesTo modules "NMW" mid = false := by
          have hm := eq_of_beq hnmh
          simp [resolvesTo, hfind, hm]
        simp [List.find?_cons, hne]
      · by_cases hnmw : (m.type == "NMW") = true
        · simp only [scanModules, hfind, if_neg hnmh, if_pos hnmw]
          rw [scanModules_snd_some]
          have hres : resolvesTo modules "NMW" mid = true := by simp [resolvesTo, hfind, hnmw]
          simp [List.find?_cons, hres]
        · simp only [scanModules, hfind, if_neg hnmh, if_neg hnmw]
          rw [ih]
          have hne : resolvesTo modules "NMW" mid = false := by simp [resolvesTo, hfind, hnmw]
          simp [List.find?_cons, hne]

theorem scanModules_warn_mem (modules : List TopoModule) (rid rname rtype : String) :
    ∀ (ids : List String) (r : Option IntuisRoom) (w : Option IntuisWaterHeater)
      (mid : String) (m : TopoModule),
      mid ∈ ids → modules.find? (fun x => x.id == mid) = some m →
      (m.type == "NMH") = false → (m.type == "NMW") = false →
      LogEvent.warnUnknownModuleType m.type rname ∈
        (scanModules modules rid rname rtype ids r w).2.2 := by
  intro ids
  induction ids with
  | nil => intro r w mid m hmem; simp at hmem
  | cons mid0 rest ih =>
    intro r w mid m hmem hfind hnmh hnmw
    rcases List.mem_cons.mp hmem with rfl | hmem0
    · simp only [scanModules, hfind, hnmh, hnmw, if_false, Bool.false_eq_true]
      simp
    · cases hfind0 : modules.find? (fun x => x.id == mid0) with
      | none =>
        simp only [scanModules, hfind0]
        exact ih r w mid m hmem0 hfind hnmh hnmw
      | some m0 =>
        by_cases h0 : (m0.type == "NMH") = true
        · simp only [scanModules, hfind0, if_pos h0]
          exact ih _ w mid m hmem0 hfind hnmh hnmw
        · by_cases h1 : (m0.type == "NMW") = true
          · simp only [scanModules, hfind0, if_neg h0, if_pos h1]
            exact ih r _ mid m hmem0 hfind hnmh hnmw
          · simp only [scanModules, hfind0, if_neg h0, if_neg h1]
            simp only [List.mem_cons]
            exact Or.inr (ih r w mid m hmem0 hfind hnmh hnmw)

theorem processRooms_rooms_notmem (modules : List TopoModule) :
    ∀ (rs : List TopoRoom) (rooms : List (String × IntuisRoom))
      (whs : List (String × IntuisWaterHeater)) (rid : String),
      rid ∉ rs.map TopoRoom.id →
      dictGet (processRooms modules rs rooms whs).1 rid = dictGet rooms rid := by
  intro rs
  induction rs with
  | nil => intro rooms whs rid h; simp [processRooms]
  | cons room0 rest ih =>
    intro rooms whs rid h
    rw [List.map_cons] at h
    have h1 : rid ≠ room0.id := fun hc => h (by simp [hc])
    have h2 : rid ∉ rest.map TopoRoom.id := fun hc => h (by simp [hc])
    cases hmi : room0.module_ids with
    | none =>
      simp only [processRooms, hmi]
      exact ih rooms whs rid h2
    | some ids0 =>
      by_cases hemp : ids0.isEmpty
      · simp only [processRooms, hmi, if_pos hemp]
        exact ih rooms whs rid h2
      · simp only [processRooms, hmi, if_neg hemp]
        rw [ih _ _ rid h2]
        cases hr : (scanModules modules room0.id room0.name room0.type ids0 none none).1 with
        | none => simp [hr]
        | some ir => simp [hr, dictGet_dictInsert_ne _ _ _ _ h1]

theorem processRooms_whs_notmem (modules : List TopoModule) :
    ∀ (rs : List TopoRoom) (rooms : List (String × IntuisRoom))
      (whs : List (String × IntuisWaterHeater)) (rid : String),
      rid ∉ rs.map TopoRoom.id →
      dictGet (processRooms modules rs rooms whs).2.1 rid = dictGet whs rid := by
  intro rs
  induction rs with
  | nil => intro rooms whs rid h; simp [processRooms]
  | cons room0 rest ih =>
    intro rooms whs rid h
    rw [List.map_cons] at h
    have h1 : rid ≠ room0.id := fun hc => h (by simp [hc])
    have h2 : rid ∉ rest.map TopoRoom.id := fun hc => h (by simp [hc])
    cases hmi : room0.module_ids with
    | none =>
      simp only [processRooms, hmi]
      exact ih rooms whs rid h2
    | some ids0 =>
      by_cases hemp : ids0.isEmpty
      · simp only [processRooms, hmi, if_pos hemp]
        exact ih rooms whs rid h2
      · simp only [processRooms, hmi, if_neg hemp]
        rw [ih _ _ rid h2]
        cases hw : (scanModules modules room0.id room0.name room0.type ids0 none none).2.1 with
        | none => simp [hw]
        | some wh => simp [hw, dictGet_dictInsert_ne _ _ _ _ h1]

theorem processRooms_whs_isSome (modules : List TopoModule) :
    ∀ (rs : List TopoRoom) (rooms : List (String × IntuisRoom))
      (whs : List (String × IntuisWaterHeater)) (k : String),
      (dictGet whs k).isSome = true →
      (dictGet (processRooms modules rs rooms whs).2.1 k).isSome = true := by
  intro rs
  induction rs with
  | nil => intro rooms whs k h; simpa [processRooms] using h
  | cons room0 rest ih =>
    intro rooms whs k h
    cases hmi : room0.module_ids with
    | none =>
      simp only [processRooms, hmi]
      exact ih rooms whs k h
    | some ids0 =>
      by_cases hemp : ids0.isEmpty
      · simp only [processRooms, hmi, if_pos hemp]
        exact ih rooms whs k h
      · simp only [processRooms, hmi, if_neg hemp]
        apply ih
        cases hw : (scanModules modules room0.id room0.name room0.type ids0 none none).2.1 with
        | none => simpa [hw] using h
        | some wh =>
          simp only [hw]
          exact dictGet_isSome_dictInsert whs room0.id k wh h

theorem processRooms_keys_nodup (modules : List TopoModule) :
    ∀ (rs : List TopoRoom) (rooms : List (String × IntuisRoom))
      (whs : List (String × IntuisWaterHeater)),
      ((whs.map Prod.fst).Nodup) →
      ((processRooms modules rs rooms whs).2.1.map Prod.fst).Nodup := by
  intro rs
  induction rs with
  | nil => intro rooms whs h; simpa [processRooms] using h
  | cons room0 rest ih =>
    intro rooms whs h
    cases hmi : room0.module_ids with
    | none =>
      simp only [processRooms, hmi]
      exact ih rooms whs h
    | some ids0 =>
      by_cases hemp : ids0.isEmpty
      · simp only [processRooms, hmi, if_pos hemp]
        exact ih rooms whs h
      · simp only [processRooms, hmi, if_neg hemp]
        apply ih
        cases hw : (scanModules modules room0.id room0.name room0.type ids0 none none).2.1 with
        | none => simpa [hw] using h
        | some wh =>
          simp only [hw]
          exact keys_nodup_dictInsert whs room0.id wh h

theorem processRooms_entry (modules : List TopoModule) :
    ∀ (rs : List TopoRoom) (rooms : List (String × IntuisRoom))
      (whs : List (String × IntuisWaterHeater)) (room : TopoRoom) (ids : List String),
      room ∈ rs → (rs.map TopoRoom.id).Nodup →
      room.module_ids = some ids → ids.isEmpty = false →
      (dictGet (processRooms modules rs rooms whs).1 room.id =
        (match (scanModules modules room.id room.name room.type ids none none).1 with
         | some ir => some ir
         | none => dictGet rooms room.id)) ∧
      (dictGet (processRooms modules rs rooms whs).2.1 room.id =
        (match (scanModules modules room.id room.name room.type ids none none).2.1 with
         | some wh => some wh
         | none => dictGet whs room.id)) := by
  intro rs
  induction rs with
  | nil => intro rooms whs room ids hmem; simp at hmem
  | cons room0 rest ih =>
    intro rooms whs room ids hmem hnd hmi hemp
    rw [List.map_cons, List.nodup_cons] at hnd
    rcases List.mem_cons.mp hmem with rfl | hmem0
    · simp only [processRooms, hmi]
      rw [if_neg (by simp [hemp])]
      constructor
      · rw [processRooms_rooms_notmem modules rest _ _ _ hnd.1]
        cases hr : (scanModules modules room.id room.name room.type ids none none).1 with
        | some ir => simp [hr, dictGet_dictInsert_self]
        | none => simp [hr]
      · rw [processRooms_whs_notmem modules rest _ _ _ hnd.1]
        cases hw : (scanModules modules room.id room.name room.type ids none none).2.1 with
        | some wh => simp [hw, dictGet_dictInsert_self]
        | none => simp [hw]
    · have hne : room.id ≠ room0.id := by
        intro hc
        exact hnd.1 (hc ▸ List.mem_map_of_mem TopoRoom.id hmem0)
      cases hmi0 : room0.module_ids with
      | none =>
        simp only [processRooms, hmi0]
        exact ih rooms whs room ids hmem0 hnd.2 hmi hemp
      | some ids0 =>
        by_cases hemp0 : ids0.isEmpty
        · simp only [processRooms, hmi0, if_pos hemp0]
          exact ih rooms whs room ids hmem0 hnd.2 hmi hemp
        · simp only [processRooms, hmi0, if_neg hemp0]
          constructor
          · rw [(ih _ _ room ids hmem0 hnd.2 hmi hemp).1]
            cases hr : (scanModules modules room.id room.name room.type ids none none).1 with
            | some ir => simp [hr]
            | none =>
              simp only [hr]
              cases hr0 : (scanModules modules room0.id room0.name room0.type ids0 none none).1 with
              | some ir0 => simp [hr0, dictGet_dictInsert_ne _ _ _ _ hne]
              | none => simp [hr0]
          · rw [(ih _ _ room ids hmem0 hnd.2 hmi hemp).2]
            cases hw : (scanModules modules room.id room.name room.type ids none none).2.1 with
            | some wh => simp [hw]
            | none =>
              simp only [hw]
              cases hw0 : (scanModules modules room0.id room0.name room0.type ids0 none none).2.1 with
              | some wh0 => simp [hw0, dictGet_dictInsert_ne _ _ _ _ hne]
              | none => simp [hw0]

theorem processRooms_warn_mem (modules : List TopoModule) :
    ∀ (rs : List TopoRoom) (rooms : List (String × IntuisRoom))
      (whs : List (String × IntuisWaterHeater)) (room : TopoRoom) (ids : List String)
      (ev : LogEvent),
      room ∈ rs → room.module_ids = some ids → ids.isEmpty = false →
      ev ∈ (scanModules modules room.id room.name room.type ids none none).2.2 →
      ev ∈ (processRooms modules rs rooms whs).2.2 := by
  intro rs
  induction rs with
  | nil => intro rooms whs room ids ev hmem; simp at hmem
  | cons room0 rest ih =>
    intro rooms whs room ids ev hmem hmi hemp hev
    rcases List.mem_cons.mp hmem with rfl | hmem0
    · simp only [processRooms, hmi]
      rw [if_neg (by simp [hemp])]
      exact List.mem_append_left _ (List.mem_append_left _ (List.mem_append_left _ hev))
    · cases hmi0 : room0.module_ids with
      | none =>
        simp only [processRooms, hmi0]
        exact ih rooms whs room ids ev hmem0 hmi hemp hev
      | some ids0 =>
        by_cases hemp0 : ids0.isEmpty
        · simp only [processRooms, hmi0, if_pos hemp0]
          exact ih rooms whs room ids ev hmem0 hmi hemp hev
        · simp only [processRooms, hmi0, if_neg hemp0]
          exact List.mem_append_right _ (ih _ _ room ids ev hmem0 hmi hemp hev)

theorem updateRooms_mem_match (statusRooms : List RoomStatus) :
    ∀ (d : List (String × IntuisRoom)) (k : String) (room : IntuisRoom) (m : RoomStatus),
      (k, room) ∈ d → statusRooms.find? (fun r => r.id == room.id) = some m →
      (k, room.update_status m) ∈ (updateRooms statusRooms d).1 := by
  intro d
  induction d with
  | nil => intro k room m hmem; simp at hmem
  | cons hd tl ih =>
    obtain ⟨k0, r0⟩ := hd
    intro k room m hmem hfind
    rcases List.mem_cons.mp hmem with heq | hmem0
    · obtain ⟨hk, hr⟩ := Prod.mk.injEq .. ▸ heq
      subst hk
      subst hr
      simp only [updateRooms, hfind]
      exact List.mem_cons_self _ _
    · simp only [updateRooms]
      cases hfind0 : statusRooms.find? (fun r => r.id == r0.id) with
      | some m0 => exact List.mem_cons_of_mem _ (ih k room m hmem0 hfind)
      | none => exact List.mem_cons_of_mem _ (ih k room m hmem0 hfind)

theorem updateRooms_mem_nomatch (statusRooms : List RoomStatus) :
    ∀ (d : List (String × IntuisRoom)) (k : String) (room : IntuisRoom),
      (k, room) ∈ d → statusRooms.find? (fun r => r.id == room.id) = none →
      (k, room) ∈ (updateRooms statusRooms d).1 ∧
      LogEvent.warnNoRoomStatus room.id ∈ (updateRooms statusRooms d).2 := by
  intro d
  induction d with
  | nil => intro k room hmem; simp at hmem
  | cons hd tl ih =>
    obtain ⟨k0, r0⟩ := hd
    intro k room hmem hfind
    rcases List.mem_cons.mp hmem with heq | hmem0
    · obtain ⟨hk, hr⟩ := Prod.mk.injEq .. ▸ heq
      subst hk
      subst hr
      simp only [updateRooms, hfind]
      exact ⟨List.mem_cons_self _ _, List.mem_cons_self _ _⟩
    · simp only [updateRooms]
      cases hfind0 : statusRooms.find? (fun r => r.id == r0.id) with
      | some m0 =>
        exact ⟨List.mem_cons_of_mem _ (ih k room hmem0 hfind).1, (ih k room hmem0 hfind).2⟩
      | none =>
        exact ⟨List.mem_cons_of_mem _ (ih k room hmem0 hfind).1,
          List.mem_cons_of_mem _ (ih k room hmem0 hfind).2⟩

theorem updateWaterHeaters_mem_match (statusModules : List ModuleStatus) :
    ∀ (d : List (String × IntuisWaterHeater)) (k : String) (wh : IntuisWaterHeater)
      (m : ModuleStatus),
      (k, wh) ∈ d → statusModules.find? (fun r => r.id == wh.id) = some m →
      (k, wh.update_status m) ∈ (updateWaterHeaters statusModules d).1 := by
  intro d
  induction d with
  | nil => intro k wh m hmem; simp at hmem
  | cons hd tl ih =>
    obtain ⟨k0, w0⟩ := hd
    intro k wh m hmem hfind
    rcases List.mem_cons.mp hmem with heq | hmem0
    · obtain ⟨hk, hw⟩ := Prod.mk.injEq .. ▸ heq
      subst hk
      subst hw
      simp only [updateWaterHeaters, hfind]
      exact List.mem_cons_self _ _
    · simp only [updateWaterHeaters]
      cases hfind0 : statusModules.find? (fun r => r.id == w0.id) with
      | some m0 => exact List.mem_cons_of_mem _ (ih k wh m hmem0 hfind)
      | none => exact List.mem_cons_of_mem _ (ih k wh m hmem0 hfind)

theorem updateWaterHeaters_mem_nomatch (statusModules : List ModuleStatus) :
    ∀ (d : List (String × IntuisWaterHeater)) (k : String) (wh : IntuisWaterHeater),
      (k, wh) ∈ d → statusModules.find? (fun r => r.id == wh.id) = none →
      (k, wh) ∈ (updateWaterHeaters statusModules d).1 ∧
      LogEvent.warnNoWaterHeaterStatus wh.id ∈ (updateWaterHeaters statusModules d).2 := by
  intro d
  induction d with
  | nil => intro k wh hmem; simp at hmem
  | cons hd tl ih =>
    obtain ⟨k0, w0⟩ := hd
    intro k wh hmem hfind
    rcases List.mem_cons.mp hmem with heq | hmem0
    · obtain ⟨hk, hw⟩ := Prod.mk.injEq .. ▸ heq
      subst hk
      subst hw
      simp only [updateWaterHeaters, hfind]
      exact ⟨List.mem_cons_self _ _, List.mem_cons_self _ _⟩
    · simp only [updateWaterHeaters]
      cases hfind0 : statusModules.find? (fun r => r.id == w0.id) with
      | some m0 =>
        exact ⟨List.mem_cons_of_mem _ (ih k wh hmem0 hfind).1, (ih k wh hmem0 hfind).2⟩
      | none =>
        exact ⟨List.mem_cons_of_mem _ (ih k wh hmem0 hfind).1,
          List.mem_cons_of_mem _ (ih k wh hmem0 hfind).2⟩

theorem get_homestatus_components (st : ClientState) (now : Nat) (tokResp : TokenResponse)
    (payload : HomeStatus) :
    (get_homestatus st now tokResp payload).1.rooms = (updateRooms payload.rooms st.rooms).1 ∧
    (get_homestatus st now tokResp payload).1.water_heaters =
      (updateWaterHeaters payload.modules st.water_heaters).1 ∧
    (get_homestatus st now tokResp payload).2 =
      (updateRooms payload.rooms st.rooms).2 ++
        (updateWaterHeaters payload.modules st.water_heaters).2 := by
  unfold get_homestatus
  rcases get_token_fst_eq_or st now tokResp with h | h <;> rw [h] <;> exact ⟨rfl, rfl, rfl⟩

theorem get_homesdata_empty (st : ClientState) (now : Nat) (tokResp : TokenResponse)
    (payload : HomesData) (h : payload.homes = []) :
    (get_homesdata st now tokResp payload).2.2 = .error .indexError ∧
    (get_homesdata st now tokResp payload).1.water_heaters = st.water_heaters ∧
    (get_homesdata st now tokResp payload).1.rooms = st.rooms := by
  unfold get_homesdata
  rw [h]
  rcases get_token_fst_eq_or st now tokResp with h1 | h1 <;> rw [h1] <;> exact ⟨rfl, rfl, rfl⟩

theorem get_homesdata_components (st : ClientState) (now : Nat) (tokResp : TokenResponse)
    (payload : HomesData) (home : TopoHome) (rest : List TopoHome)
    (h : payload.homes = home :: rest) :
    (get_homesdata st now tokResp payload).2.2 = .ok () ∧
    (get_homesdata st now tokResp payload).1.home_id = some home.id ∧
    (get_homesdata st now tokResp payload).1.home_name = some home.name ∧
    (get_homesdata st now tokResp payload).1.rooms =
      (processRooms home.modules home.rooms [] st.water_heaters).1 ∧
    (get_homesdata st now tokResp payload).1.water_heaters =
      (processRooms home.modules home.rooms [] st.water_heaters).2.1 ∧
    (get_homesdata st now tokResp payload).2.1 =
      (processRooms home.modules home.rooms [] st.water_heaters).2.2 := by
  unfold get_homesdata
  rw [h]
  rcases get_token_fst_eq_or st now tokResp with h1 | h1 <;> rw [h1] <;>
    exact ⟨rfl, rfl, rfl, rfl, rfl, rfl⟩

/-! ## C2 -/

/-- C2: `_get_token` returns the cached token unchanged, with no network
request, whenever a (truthy) cached token exists and the current time is
strictly before its expiry; in every other situation it performs exactly one
password-grant exchange, caches the returned access and refresh tokens, and
sets the expiry to the exchange time plus 3600 seconds, ignoring any
server-provided `expires_in`. -/
theorem C2_token_cache (st : ClientState) (now : Nat) (resp : TokenResponse) :
    (∀ tok e, st.token = some tok → tok ≠ "" → st.token_expiry = some e → now < e →
      get_token st now resp = (st, some tok, 0)) ∧
    ((st.token = none ∨ st.token = some "" ∨ st.token_expiry = none ∨
        (∃ e, st.token_expiry = some e ∧ ¬ now < e)) →
      get_token st now resp =
        ({ st with
            token := resp.access_token
            refresh_token := resp.refresh_token
            token_expiry := some (now + 3600) }, resp.access_token, 1)) := by
  constructor
  · intro tok e htok hne hexp hlt
    have hece : e ≠ 0 := by omega
    unfold get_token
    rw [if_pos]
    · rw [htok]
    · simp [strTruthy, natTruthy, htok, hexp, hne, hlt, hece]
  · intro h
    unfold get_token
    rw [if_neg]
    intro hc
    rcases h with h | h | h | ⟨e, he, hnl⟩
    · simp [strTruthy, h] at hc
    · simp [strTruthy, h] at hc
    · simp [natTruthy, h] at hc
    · simp [strTruthy, natTruthy, he] at hc
      exact hnl hc.2

/-- Witness for C2 at a concrete cached state. -/
theorem C2_token_cache_witness :
    get_token stCached 50 respSample = (stCached, some "abc", 0) :=
  (C2_token_cache stCached 50 respSample).1 "abc" 100 rfl (by decide) rfl (by decide)

/-! ## C4 -/

/-- C4: `set_room_mode` raises a `ValueError` before any network call and
without touching client state when the mode is outside
`{program, away, hg, manual}` or is `"manual"` with no temperature; on
success the temperature field is in the outgoing payload exactly when the
mode is `"manual"`; and `set_water_heater_mode` raises a `ValueError` before
any network call for any mode other than `"auto"` or `"manual"`. -/
theorem C4_mode_validation (st : ClientState) (room_id mode whmode : String)
    (temperature : Option Rat) (now : Nat) (resp : TokenResponse) :
    (mode ∉ valid_modes →
      set_room_mode st room_id mode temperature now resp =
        (st, 0, .error (.valueError "Mode must be one of: program, away, hg, manual"))) ∧
    (mode = "manual" → temperature = none →
      set_room_mode st room_id mode temperature now resp =
        (st, 0, .error (.valueError "Temperature must be specified when using manual mode"))) ∧
    (∀ st1 n cmd, set_room_mode st room_id mode temperature now resp = (st1, n, .ok cmd) →
      cmd.therm_setpoint_temperature = (if mode = "manual" then temperature else none) ∧
      (cmd.therm_setpoint_temperature.isSome = true ↔ mode = "manual")) ∧
    (whmode ∉ (["auto", "manual"] : List String) →
      set_water_heater_mode st room_id whmode now resp =
        (st, 0, .error (.valueError "Mode must be auto or manual"))) := by
  refine ⟨?_, ?_, ?_, ?_⟩
  · intro hmem
    unfold set_room_mode
    rw [if_pos]
    simp [hmem]
  · intro hm ht
    unfold set_room_mode
    rw [if_neg, if_pos]
    · simp [hm, ht]
    · simp [hm, valid_modes]
  · intro st1 n cmd h
    unfold set_room_mode at h
    by_cases h1 : valid_modes.contains mode
    · by_cases h2 : (mode == "manual") && temperature.isNone
      · rw [if_neg (by simpa using h1), if_pos h2] at h
        simp at h
      · rw [if_neg (by simpa using h1), if_neg h2] at h
        simp only [Prod.mk.injEq] at h
        obtain ⟨-, -, h3⟩ := h
        injection h3 with h4
        subst h4
        by_cases hm : mode = "manual"
        · subst hm
          cases temperature with
          | none => simp at h2
          | some v => simp
        · have hbeq : (mode == "manual") = false := by simp [hm]
          simp [hbeq, hm]
    · rw [if_pos (by simpa using h1)] at h
      simp at h
  · intro hmem
    unfold set_water_heater_mode
    rw [if_pos]
    simp [hmem]

/-- Witness for C4: a bogus room mode, a manual mode without temperature,
a successful manual call carrying the temperature, and a bogus water-heater
mode, all at concrete inputs. -/
theorem C4_mode_validation_witness :
    set_room_mode stSample "room1" "bogus" none 0 respSample =
      (stSample, 0, .error (.valueError "Mode must be one of: program, away, hg, manual")) ∧
    set_room_mode stSample "room1" "manual" none 0 respSample =
      (stSample, 0, .error (.valueError "Temperature must be specified when using manual mode")) ∧
    set_water_heater_mode stSample "wh1" "bogus" 0 respSample =
      (stSample, 0, .error (.valueError "Mode must be auto or manual")) := by
  refine ⟨?_, ?_, ?_⟩
  · exact (C4_mode_validation stSample "room1" "bogus" "auto" none 0 respSample).1 (by decide)
  · exact (C4_mode_validation stSample "room1" "manual" "auto" none 0 respSample).2.1 rfl rfl
  · exact (C4_mode_validation stSample "room1" "manual" "bogus" none 0 respSample).2.2.2 (by decide)

/-! ## C8 -/

/-- C8 counterexample: calling `set_room_setpoint` with an explicitly
supplied `end_time = 0` produces a payload with NO end-time field, refuting
the claim that a supplied `endTime` is always included verbatim. -/
theorem C8_counterexample :
    (set_room_setpoint stSample "room1" (39/2 : Rat) (some 0) 0 respSample).2.2 =
      .ok { id := "room1"
            therm_setpoint_mode := "manual"
            therm_setpoint_temperature := some (39/2 : Rat)
            therm_setpoint_end_time := none } := by
  rfl

/-- C8 (amended): `set_room_setpoint` always posts mode `"manual"` with the
caller-supplied temperature; the end-time field is in the payload exactly
when a truthy (non-`None`, non-zero) `end_time` was supplied, in which case
the supplied value is included verbatim; when `end_time` is omitted or
equals `0` the field is absent. -/
theorem C8_setpoint_payload (st : ClientState) (room_id : String) (temp : Rat)
    (end_time : Option Int) (now : Nat) (resp : TokenResponse) :
    (set_room_setpoint st room_id temp end_time now resp).2.2 =
      .ok { id := room_id
            therm_setpoint_mode := "manual"
            therm_setpoint_temperature := some temp
            therm_setpoint_end_time :=
              match end_time with
              | none => none
              | some ts => if ts = 0 then none else some ts } := by
  unfold set_room_setpoint
  cases end_time with
  | none => rfl
  | some ts => by_cases h : ts = 0 <;> simp [intTruthy, h]

/-! ## C10 -/

/-- C10: the effective constructor takes no credential arguments (the second
`__init__` shadows the credential-taking one) and always reads the four
credentials from `secrets.json`; it fails with a `ValueError` when the file
is missing or unparseable or when any of the four credentials is absent, and
on success the client state carries exactly the file's credentials. -/
theorem C10_constructor (base_url : String) :
    (clientInit .missing base_url =
      .error (.valueError "Missing credentials and could not load from secrets.json")) ∧
    (clientInit .unparseable base_url =
      .error (.valueError "Missing credentials and could not load from secrets.json")) ∧
    (∀ entries : List (String × String),
      (dictGet entries "username" = none ∨ dictGet entries "password" = none ∨
       dictGet entries "client_id" = none ∨ dictGet entries "client_secret" = none) →
      clientInit (.parsed entries) base_url =
        .error (.valueError
          "Missing required credentials. Please provide all credentials or ensure they are in secrets.json")) ∧
    (∀ entries u p ci cs,
      dictGet entries "username" = some u → u ≠ "" →
      dictGet entries "password" = some p → p ≠ "" →
      dictGet entries "client_id" = some ci → ci ≠ "" →
      dictGet entries "client_secret" = some cs → cs ≠ "" →
      clientInit (.parsed entries) base_url = .ok (do_init u p ci cs base_url)) := by
  refine ⟨rfl, rfl, ?_, ?_⟩
  · intro entries h
    have hc : (strTruthy (dictGet entries "username") && strTruthy (dictGet entries "password") &&
        strTruthy (dictGet entries "client_id") && strTruthy (dictGet entries "client_secret")) = false := by
      rcases h with h | h | h | h <;> simp [strTruthy, h]
    simp [clientInit, hc]
  · intro entries u p ci cs hu hune hp hpne hci hcine hcs hcsne
    have hc : (strTruthy (dictGet entries "username") && strTruthy (dictGet entries "password") &&
        strTruthy (dictGet entries "client_id") && strTruthy (dictGet entries "client_secret")) = true := by
      simp [strTruthy, hu, hp, hci, hcs, hune, hpne, hcine, hcsne]
    simp [clientInit, hc, hu, hp, hci, hcs, strTruthy, hune, hpne, hcine, hcsne]

/-- Witness for C10: a parsed secrets file holding all four credentials
yields a client initialised from exactly those values. -/
theorem C10_constructor_witness :
    clientInit (.parsed [("username", "u"), ("password", "p"),
        ("client_id", "ci"), ("client_secret", "cs")]) "https://app.muller-intuitiv.net" =
      .ok (do_init "u" "p" "ci" "cs" "https://app.muller-intuitiv.net") :=
  (C10_constructor "https://app.muller-intuitiv.net").2.2.2
    [("username", "u"), ("password", "p"), ("client_id", "ci"), ("client_secret", "cs")]
    "u" "p" "ci" "cs" (by decide) (by decide) (by decide) (by decide)
    (by decide) (by decide) (by decide) (by decide)

/-! ## C7 -/

/-- C7 counterexample: on an empty home list, `get_homesdata` fails with an
`IndexError` (from `homes[0]`), not with the configuration-error kind
(`ValueError`) that the claim asserts. -/
theorem C7_counterexample :
    (get_homesdata stSample 0 respSample { homes := [] }).2.2 =
      .error .indexError := by
  rfl

/-- C7 (amended): `loadTopology` always models exactly the first entry of
the account's home list, recording its id and name; when the home list is
empty it fails with an index-out-of-range fault (`IndexError`), which is not
a configuration (`ValueError`) fault. -/
theorem C7_first_home (st : ClientState) (now : Nat) (tokResp : TokenResponse) :
    (∀ payload : HomesData, payload.homes = [] →
      (get_homesdata st now tokResp payload).2.2 = .error .indexError ∧
      ∀ msg, (Except.error PyErr.indexError : Except PyErr Unit) ≠
        .error (.valueError msg)) ∧
    (∀ (payload : HomesData) (home : TopoHome) (rest : List TopoHome),
      payload.homes = home :: rest →
      (get_homesdata st now tokResp payload).2.2 = .ok () ∧
      (get_homesdata st now tokResp payload).1.home_id = some home.id ∧
      (get_homesdata st now tokResp payload).1.home_name = some home.name) := by
  constructor
  · intro payload h
    refine ⟨(get_homesdata_empty st now tokResp payload h).1, ?_⟩
    intro msg hc
    simp at hc
  · intro payload home rest h
    obtain ⟨h1, h2, h3, -, -, -⟩ := get_homesdata_components st now tokResp payload home rest h
    exact ⟨h1, h2, h3⟩

/-- Witness for C7 at the sample topology. -/
theorem C7_first_home_witness :
    (get_homesdata stSample 0 respSample topoSample).2.2 = .ok () ∧
    (get_homesdata stSample 0 respSample topoSample).1.home_id = some "h1" ∧
    (get_homesdata stSample 0 respSample topoSample).1.home_name = some "Home" :=
  (C7_first_home stSample 0 respSample).2 topoSample homeSample [] rfl

/-! ## C9 -/

/-- C9: a topology load never removes a water-heater entry (every key
present before the load is still present after it, whether the load
succeeds or fails), while on a successful load the room map is rebuilt from
empty — the resulting room map does not depend on the prior room map. -/
theorem C9_reload (st : ClientState) (now : Nat) (tokResp : TokenResponse)
    (payload : HomesData) :
    (∀ k, (dictGet st.water_heaters k).isSome = true →
      (dictGet (get_homesdata st now tokResp payload).1.water_heaters k).isSome = true) ∧
    (∀ (rooms0 : List (String × IntuisRoom)) (home : TopoHome) (rest : List TopoHome),
      payload.homes = home :: rest →
      (get_homesdata { st with rooms := rooms0 } now tokResp payload).1.rooms =
        (get_homesdata st now tokResp payload).1.rooms) := by
  constructor
  · intro k h
    cases hh : payload.homes with
    | nil =>
      rw [(get_homesdata_empty st now tokResp payload hh).2.1]
      exact h
    | cons home rest =>
      rw [(get_homesdata_components st now tokResp payload home rest hh).2.2.2.2.1]
      exact processRooms_whs_isSome _ _ _ _ _ h
  · intro rooms0 home rest hh
    rw [(get_homesdata_components { st with rooms := rooms0 } now tokResp payload home rest
        hh).2.2.2.1,
      (get_homesdata_components st now tokResp payload home rest hh).2.2.2.1]

/-- Witness for C9: after reloading a topology that no longer mentions the
previously loaded room, the old water-heater entry is still present, and the
rebuilt room map is the same whether or not the prior room map was empty. -/
theorem C9_reload_witness :
    (dictGet (get_homesdata stLoaded 0 respSample topoEmptyHome).1.water_heaters
      "room1").isSome = true ∧
    (get_homesdata { stLoaded with rooms := [] } 0 respSample topoEmptyHome).1.rooms =
      (get_homesdata stLoaded 0 respSample topoEmptyHome).1.rooms :=
  ⟨(C9_reload stLoaded 0 respSample topoEmptyHome).1 "room1" (by rfl),
   (C9_reload stLoaded 0 respSample topoEmptyHome).2 [] homeEmpty [] rfl⟩

/-! ## C5 -/

/-- C5: a topology load over a nonempty home list always succeeds, and for
every room entry with non-empty module bindings (room ids distinct, the
room's key not already held by a water heater): a Room is registered under
the room's id exactly when some bound module resolves to heating type
(`NMH`), a WaterHeater is registered exactly when some bound module resolves
to water-heater type (`NMW`), and every bound module resolving to any other
type produces a warning without failing the load. -/
theorem C5_registration (st : ClientState) (now : Nat) (tokResp : TokenResponse)
    (payload : HomesData) (home : TopoHome) (rest : List TopoHome)
    (h : payload.homes = home :: rest) :
    ((get_homesdata st now tokResp payload).2.2 = .ok ()) ∧
    (∀ room ∈ home.rooms, ∀ ids, room.module_ids = some ids → ids.isEmpty = false →
      (home.rooms.map TopoRoom.id).Nodup →
      ((dictGet (get_homesdata st now tokResp payload).1.rooms room.id).isSome =
        ids.any (resolvesTo home.modules "NMH")) ∧
      (dictGet st.water_heaters room.id = none →
        (dictGet (get_homesdata st now tokResp payload).1.water_heaters room.id).isSome =
          ids.any (resolvesTo home.modules "NMW")) ∧
      (∀ mid ∈ ids, ∀ m : TopoModule, home.modules.find? (fun x => x.id == mid) = some m →
        (m.type == "NMH") = false → (m.type == "NMW") = false →
        LogEvent.warnUnknownModuleType m.type room.name ∈
          (get_homesdata st now tokResp payload).2.1)) := by
  obtain ⟨hok, -, -, hrooms, hwhs, hevs⟩ :=
    get_homesdata_components st now tokResp payload home rest h
  refine ⟨hok, ?_⟩
  intro room hmem ids hmi hemp hnd
  have hentry := processRooms_entry home.modules home.rooms [] st.water_heaters room ids
    hmem hnd hmi hemp
  refine ⟨?_, ?_, ?_⟩
  · rw [hrooms, hentry.1]
    have hfst := scanModules_fst home.modules room.id room.name room.type ids none none
    cases hr : (scanModules home.modules room.id room.name room.type ids none none).1 with
    | some ir =>
      rw [hr] at hfst
      simpa using hfst
    | none =>
      rw [hr] at hfst
      simpa [dictGet] using hfst
  · intro hwnone
    rw [hwhs, hentry.2]
    have hsnd := scanModules_snd_none home.modules room.id room.name room.type ids none
    cases hw : (scanModules home.modules room.id room.name room.type ids none none).2.1 with
    | some wh =>
      rw [hw] at hsnd
      have hfs : (ids.find? (resolvesTo home.modules "NMW")).isSome = true := by
        cases hfind : ids.find? (resolvesTo home.modules "NMW") with
        | none => rw [hfind] at hsnd; simp at hsnd
        | some mid => rfl
      rw [find?_isSome_eq_any] at hfs
      simp [hfs]
    | none =>
      rw [hw] at hsnd
      have hfs : ids.find? (resolvesTo home.modules "NMW") = none := by
        cases hfind : ids.find? (resolvesTo home.modules "NMW") with
        | none => rfl
        | some mid => rw [hfind] at hsnd; simp at hsnd
      rw [List.find?_eq_none] at hfs
      have hany : ids.any (resolvesTo home.modules "NMW") = false := by
        rw [List.any_eq_false]
        intro x hx
        simp [hfs x hx]
      simp [hany, hwnone]
  · intro mid hmid m hfind hnmh hnmw
    rw [hevs]
    exact processRooms_warn_mem home.modules home.rooms [] st.water_heaters room ids _
      hmem hmi hemp
      (scanModules_warn_mem home.modules room.id room.name room.type ids none none mid m
        hmid hfind hnmh hnmw)

/-- Witness for C5 at the sample topology: the room is registered (a heating
module is bound), the water heater is registered (a water-heater module is
bound), and the unknown-type module produced a warning. -/
theorem C5_registration_witness :
    (dictGet (get_homesdata stSample 0 respSample topoSample).1.rooms "room1").isSome =
      true ∧
    (dictGet (get_homesdata stSample 0 respSample topoSample).1.water_heaters
      "room1").isSome = true ∧
    LogEvent.warnUnknownModuleType "NAC" "Bath" ∈
      (get_homesdata stSample 0 respSample topoSample).2.1 := by
  have h := (C5_registration stSample 0 respSample topoSample homeSample [] rfl).2
    roomSample (by decide) ["mod1", "mod2", "mod3", "mod4"] rfl (by decide) (by decide)
  refine ⟨h.1, h.2.1 rfl, ?_⟩
  exact h.2.2 "mod4" (by decide)
    { id := "mod4", type := "NAC", name := some "odd" } (by decide) (by decide) (by decide)

/-! ## C6 -/

/-- C6: after any topology load the water-heater map still has pairwise
distinct room-id keys (at most one WaterHeater per room), and for a room
whose bound ids contain water-heater modules, the entry stored under the
room's id is built from the FIRST bound id resolving to water-heater type —
every later water-heater module in that room is discarded. -/
theorem C6_water_heater_uniqueness (st : ClientState) (now : Nat) (tokResp : TokenResponse)
    (payload : HomesData) (home : TopoHome) (rest : List TopoHome)
    (h : payload.homes = home :: rest) :
    ((st.water_heaters.map Prod.fst).Nodup →
      ((get_homesdata st now tokResp payload).1.water_heaters.map Prod.fst).Nodup) ∧
    (∀ room ∈ home.rooms, ∀ ids, room.module_ids = some ids → ids.isEmpty = false →
      (home.rooms.map TopoRoom.id).Nodup → dictGet st.water_heaters room.id = none →
      ∀ mid, ids.find? (resolvesTo home.modules "NMW") = some mid →
      dictGet (get_homesdata st now tokResp payload).1.water_heaters room.id =
        some (IntuisWaterHeater.init mid room.name room.id)) := by
  obtain ⟨-, -, -, -, hwhs, -⟩ := get_homesdata_components st now tokResp payload home rest h
  constructor
  · intro hnd
    rw [hwhs]
    exact processRooms_keys_nodup _ _ _ _ hnd
  · intro room hmem ids hmi hemp hnd hwnone mid hfindmid
    rw [hwhs, (processRooms_entry home.modules home.rooms [] st.water_heaters room ids
      hmem hnd hmi hemp).2]
    have hsnd := scanModules_snd_none home.modules room.id room.name room.type ids none
    rw [hfindmid] at hsnd
    rw [hsnd]
    simp

/-- Witness for C6 at the sample topology: the stored water heater comes
from `"mod1"`, the first bound water-heater module; `"mod3"` is discarded;
the key set stays duplicate-free. -/
theorem C6_water_heater_uniqueness_witness :
    ((get_homesdata stSample 0 respSample topoSample).1.water_heaters.map
      Prod.fst).Nodup ∧
    dictGet (get_homesdata stSample 0 respSample topoSample).1.water_heaters "room1" =
      some (IntuisWaterHeater.init "mod1" "Bath" "room1") := by
  have h := C6_water_heater_uniqueness stSample 0 respSample topoSample homeSample [] rfl
  refine ⟨h.1 (by decide), ?_⟩
  exact h.2 roomSample (by decide) ["mod1", "mod2", "mod3", "mod4"] rfl (by decide)
    (by decide) rfl "mod1" (by decide)

/-! ## C1 -/

/-- C1 counterexample: after loading the sample topology, the WaterHeater is
stored under the room's id `"room1"`, yet its own id is the MODULE id
`"mod1"` — not the room id, as the claim asserts; and on `get_homestatus`
the match against the module list hits a record of type `"NAC"` (not a
water-heater type) and still updates the WaterHeater, refuting the claimed
restriction to water-heater-type records. -/
theorem C1_counterexample :
    dictGet stLoaded.water_heaters "room1" =
      some (IntuisWaterHeater.init "mod1" "Bath" "room1") ∧
    "mod1" ≠ "room1" ∧
    (statusSample.modules.find? (fun r => r.id == "mod1")).map ModuleStatus.type =
      some (some "NAC") ∧
    dictGet (get_homestatus stLoaded 0 respSample statusSample).1.water_heaters "room1" =
      some { IntuisWaterHeater.init "mod1" "Bath" "room1" with
          boiler_status := some true
          connection_status := some "ok"
          contactor_mode := some "auto"
          firmware_revision := some 2
          last_seen := some 77
          bridge := some "gw" } := by
  refine ⟨rfl, by decide, rfl, rfl⟩

/-- C1 (amended): the WaterHeater created for a room is stored under the
owning room's id, but its own id is the first bound water-heater MODULE's id
(not the room id it was keyed by) while its `room_id` field holds the room's
id; on every `get_homestatus` each WaterHeater is matched against the status
payload's module list by its own id, with NO restriction on the matched
record's module type, and with no match it is left unchanged and a warning
recorded. -/
theorem C1_water_heater_identity (st : ClientState) (now : Nat) (tokResp : TokenResponse) :
    (∀ (payload : HomesData) (home : TopoHome) (rest : List TopoHome),
      payload.homes = home :: rest →
      ∀ room ∈ home.rooms, ∀ ids, room.module_ids = some ids → ids.isEmpty = false →
      (home.rooms.map TopoRoom.id).Nodup → dictGet st.water_heaters room.id = none →
      ∀ mid, ids.find? (resolvesTo home.modules "NMW") = some mid →
      ∀ wh1, dictGet (get_homesdata st now tokResp payload).1.water_heaters room.id =
          some wh1 →
        wh1.id = mid ∧ wh1.room_id = room.id ∧ wh1.name = room.name) ∧
    (∀ (payload : HomeStatus) (k : String) (wh : IntuisWaterHeater),
      (k, wh) ∈ st.water_heaters →
      (∀ m : ModuleStatus, payload.modules.find? (fun r => r.id == wh.id) = some m →
        (k, { wh with
            boiler_status := m.boiler_status
            connection_status := m.connection_status
            contactor_mode := m.contactor_mode
            firmware_revision := m.firmware_revision
            last_seen := m.last_seen
            bridge := m.bridge })
          ∈ (get_homestatus st now tokResp payload).1.water_heaters) ∧
      (payload.modules.find? (fun r => r.id == wh.id) = none →
        (k, wh) ∈ (get_homestatus st now tokResp payload).1.water_heaters ∧
        LogEvent.warnNoWaterHeaterStatus wh.id ∈
          (get_homestatus st now tokResp payload).2)) := by
  constructor
  · intro payload home rest h room hmem ids hmi hemp hnd hwnone mid hfindmid wh1 hget
    obtain ⟨-, -, -, -, hwhs, -⟩ := get_homesdata_components st now tokResp payload home rest h
    rw [hwhs, (processRooms_entry home.modules home.rooms [] st.water_heaters room ids
      hmem hnd hmi hemp).2] at hget
    have hsnd := scanModules_snd_none home.modules room.id room.name room.type ids none
    rw [hfindmid] at hsnd
    rw [hsnd] at hget
    simp at hget
    subst hget
    exact ⟨rfl, rfl, rfl⟩
  · intro payload k wh hmem
    obtain ⟨-, hwhs, hevs⟩ := get_homestatus_components st now tokResp payload
    constructor
    · intro m hfind
      rw [hwhs]
      exact updateWaterHeaters_mem_match payload.modules st.water_heaters k wh m hmem hfind
    · intro hfind
      refine ⟨?_, ?_⟩
      · rw [hwhs]
        exact (updateWaterHeaters_mem_nomatch payload.modules st.water_heaters k wh
          hmem hfind).1
      · rw [hevs]
        exact List.mem_append_right _
          (updateWaterHeaters_mem_nomatch payload.modules st.water_heaters k wh
            hmem hfind).2

/-- Witness for C1 at the sample topology and status: identity of the
stored heater, and a status merge matching the stored heater by its module
id against a non-water-heater-type record. -/
theorem C1_water_heater_identity_witness :
    ((IntuisWaterHeater.init "mod1" "Bath" "room1").id = "mod1" ∧
      (IntuisWaterHeater.init "mod1" "Bath" "room1").room_id = "room1" ∧
      (IntuisWaterHeater.init "mod1" "Bath" "room1").name = "Bath") ∧
    ("room1", { IntuisWaterHeater.init "mod1" "Bath" "room1" with
        boiler_status := some true
        connection_status := some "ok"
        contactor_mode := some "auto"
        firmware_revision := some 2
        last_seen := some 77
        bridge := some "gw" })
      ∈ (get_homestatus stLoaded 0 respSample statusSample).1.water_heaters := by
  constructor
  · exact (C1_water_heater_identity stSample 0 respSample).1 topoSample homeSample [] rfl
      roomSample (by decide) ["mod1", "mod2", "mod3", "mod4"] rfl (by decide) (by decide)
      rfl "mod1" (by decide) (IntuisWaterHeater.init "mod1" "Bath" "room1") (by decide)
  · exact ((C1_water_heater_identity stLoaded 0 respSample).2 statusSample "room1"
      (IntuisWaterHeater.init "mod1" "Bath" "room1") (by decide)).1
      { id := "mod1", type := some "NAC", boiler_status := some true,
        connection_status := some "ok", contactor_mode := some "auto",
        firmware_revision := some 2, last_seen := some 77, bridge := some "gw" }
      (by decide)

/-! ## C3 -/

/-- C3 counterexample: a Room holding `current_temp = 20` is merged against
a status record that LACKS the measured-temperature field; the merge
overwrites the prior value with `None` instead of leaving it untouched,
refuting the claim that absent fields leave prior values unchanged. -/
theorem C3_counterexample :
    (dictGet stWithReadings.rooms "room1").map IntuisRoom.current_temp =
      some (some 20) ∧
    (statusSample.rooms.find? (fun r => r.id == "room1")).map
      RoomStatus.therm_measured_temperature = some none ∧
    (dictGet (get_homestatus stWithReadings 0 respSample statusSample).1.rooms
      "room1").map IntuisRoom.current_temp = some none := by
  refine ⟨rfl, rfl, rfl⟩

/-- C3 (amended): for every known Room with a matching status entry,
`refreshStatus` overwrites current temperature, target temperature, mode and
heating power with the payload record's values — a field absent from the
payload overwrites the prior value with `None` — and only the energy field
is updated solely when present (its absence keeps the prior value); a Room
whose id has no matching status entry is left entirely unchanged and a
warning is recorded rather than an error raised. -/
theorem C3_status_merge (st : ClientState) (now : Nat) (tokResp : TokenResponse)
    (payload : HomeStatus) (k : String) (room : IntuisRoom)
    (hmem : (k, room) ∈ st.rooms) :
    (∀ m : RoomStatus, payload.rooms.find? (fun r => r.id == room.id) = some m →
      (k, { room with
          current_temp := m.therm_measured_temperature
          target_temp := m.therm_setpoint_temperature
          mode := m.therm_setpoint_mode
          heating_power := m.heating_power_request
          energy_consumption :=
            match m.energy with
            | some e => some e
            | none => room.energy_consumption })
        ∈ (get_homestatus st now tokResp payload).1.rooms) ∧
    (payload.rooms.find? (fun r => r.id == room.id) = none →
      (k, room) ∈ (get_homestatus st now tokResp payload).1.rooms ∧
      LogEvent.warnNoRoomStatus room.id ∈ (get_homestatus st now tokResp payload).2) := by
  obtain ⟨hrooms, -, hevs⟩ := get_homestatus_components st now tokResp payload
  constructor
  · intro m hfind
    rw [hrooms]
    exact updateRooms_mem_match payload.rooms st.rooms k room m hmem hfind
  · intro hfind
    refine ⟨?_, ?_⟩
    · rw [hrooms]
      exact (updateRooms_mem_nomatch payload.rooms st.rooms k room hmem hfind).1
    · rw [hevs]
      exact List.mem_append_left _
        (updateRooms_mem_nomatch payload.rooms st.rooms k room hmem hfind).2

/-- Witness for C3: the matched room ends up with the payload's values
(absent fields becoming `None`, energy kept), and the unmatched room is kept
verbatim with a warning recorded. -/
theorem C3_status_merge_witness :
    ("room1", { IntuisRoom.init "room1" "Bath" "bathroom" with
        mode := some "program"
        energy_consumption := some 5 })
      ∈ (get_homestatus stWithReadings 0 respSample statusSample).1.rooms ∧
    ("room2", IntuisRoom.init "room2" "Kitchen" "kitchen")
      ∈ (get_homestatus stWithReadings 0 respSample statusSample).1.rooms ∧
    LogEvent.warnNoRoomStatus "room2" ∈
      (get_homestatus stWithReadings 0 respSample statusSample).2 := by
  refine ⟨?_, ?_, ?_⟩
  · exact (C3_status_merge stWithReadings 0 respSample statusSample "room1"
      { IntuisRoom.init "room1" "Bath" "bathroom" with
          current_temp := some 20
          target_temp := some 19
          mode := some "manual"
          heating_power := some 42
          energy_consumption := some 5 } (by decide)).1
      { id := "room1", therm_measured_temperature := none,
        therm_setpoint_temperature := none, therm_setpoint_mode := some "program",
        heating_power_request := none, energy := none } (by decide)
  · exact ((C3_status_merge stWithReadings 0 respSample statusSample "room2"
      (IntuisRoom.init "room2" "Kitchen" "kitchen") (by decide)).2 (by decide)).1
  · exact ((C3_status_merge stWithReadings 0 respSample statusSample "room2"
      (IntuisRoom.init "room2" "Kitchen" "kitchen") (by decide)).2 (by decide)).2

end Intuis
